import Mathlib

/-!
Shallow embedding of the kaeru property-graph → Datalog converter
(`src/kaeru/node.py`, `src/kaeru/relation.py`, fact-file routing from
`src/kaeru/cli_utils.py`), together with theorems checking the
natural-language specification against this embedding.

Conventions of the embedding:
* Python strings are Lean `String`s; values stored in a `Node`/`Relation`
  property dictionary may be Python `str` or Python `int` (the null
  substitution stores the integer `0`), modelled by `PyVal`.
* Python dicts keyed by column position are association lists in insertion
  order; `OrderedDict` is an association list with in-place update.
* Python `set` is a deduplicating list; the list order stands for the set's
  (stable) iteration order.
* File input is a list of lines (newline characters already stripped, as the
  code does with `strip("\n")`); writing to an output file is modelled by
  the state transformer `Emit` appending to a string buffer.
* A raised Python exception is `Except.error`/an error component carrying the
  message.
-/

namespace Kaeru

/-- Python value stored in a property dictionary: either a `str` or an `int`
(`createNodes`/`createRelation` store the integer `0` for empty number-typed
values). -/
inductive PyVal where
  | str : String → PyVal
  | int : Int → PyVal
deriving DecidableEq, Repr

/-- Python `+` between a `str` on the left and a stored value on the right;
concatenating a non-`str` raises `TypeError`. -/
def pyStrAdd (s : String) (v : PyVal) : Except String String :=
  match v with
  | .str t => .ok (s ++ t)
  | .int _ => .error "TypeError: can only concatenate str (not int) to str"

/-- Concatenation of a list of strings (Python `output += piece` loops). -/
def strJoin : List String → String
  | [] => ""
  | x :: xs => x ++ strJoin xs

/-- Python `str.capitalize()`: first character upper-cased, all remaining
characters lower-cased. -/
def strCapitalize (s : String) : String :=
  match s.toList with
  | [] => ""
  | c :: cs => String.mk (c.toUpper :: cs.map Char.toLower)

/-- Python `str.lower()` (ASCII case mapping). -/
def pyLower (s : String) : String :=
  String.mk (s.toList.map Char.toLower)

/-- Contiguous-sublist test on character lists. -/
def infixOfChars (needle : List Char) : List Char → Bool
  | [] => needle.isEmpty
  | c :: rest => needle.isPrefixOf (c :: rest) || infixOfChars needle rest

/-- Python `needle in hay` substring test. -/
def pyInStr (needle hay : String) : Bool :=
  infixOfChars needle.toList hay.toList

/-- Split a character list at every occurrence of `sep`
(Python `str.split(sep)` for a one-character separator). -/
def splitOnChar (sep : Char) : List Char → List (List Char)
  | [] => [[]]
  | c :: rest =>
    if c = sep then [] :: splitOnChar sep rest
    else
      match splitOnChar sep rest with
      | [] => [[c]]
      | g :: gs => (c :: g) :: gs

/-- Python `s.split(sep)` for a one-character separator. -/
def pySplit (sep : Char) (s : String) : List String :=
  (splitOnChar sep s.toList).map String.mk

/-- Left-to-right scan behind `findParenGroups`: outside any group
(`inside = none`) a `'('` opens a group; inside a group (`inside = some buf`,
reversed buffer) a `')'` closes it, emitting the buffer when it is non-empty
(the pattern `[^)]+` needs at least one character); every other character is
buffered. -/
def findParenAux (inside : Option (List Char)) : List Char → List String
  | [] => []
  | c :: rest =>
    match inside with
    | none =>
      if c = '(' then findParenAux (some []) rest
      else findParenAux none rest
    | some buf =>
      if c = ')' then
        if buf.isEmpty then findParenAux none rest
        else String.mk buf.reverse :: findParenAux none rest
      else findParenAux (some (c :: buf)) rest

/-- `re.findall("\\(([^)]+)\\)", s)`: every non-empty maximal parenthesized
group of `s`, scanned left to right. -/
def findParenGroups (s : List Char) : List String :=
  findParenAux none s

/-- Rendering of an optional string in a Python f-string: `None` prints as
`"None"`. -/
def pyStrOfOpt : Option String → String
  | some s => s
  | none => "None"

/-- Python truthiness of an `Optional[str]`: `None` and `""` are falsy. -/
def pyTruthy : Option String → Bool
  | some s => decide (s ≠ "")
  | none => false

/-! ### Ordered dictionaries (Python `dict`/`OrderedDict` as association lists) -/

/-- `d[k]` lookup returning `none` when the key is absent. -/
def odGet (k : String) (l : List (String × PyVal)) : Option PyVal :=
  (l.find? (fun kv => kv.1 == k)).map (·.2)

/-- `d[k] = v`: update in place when the key exists, append otherwise. -/
def odSet (k : String) (v : PyVal) (l : List (String × PyVal)) :
    List (String × PyVal) :=
  if l.any (fun kv => kv.1 == k) then
    l.map (fun kv => if kv.1 == k then (k, v) else kv)
  else l ++ [(k, v)]

/-- `d.pop(k)`: remove the entry with key `k`. -/
def odRemove (k : String) (l : List (String × PyVal)) : List (String × PyVal) :=
  l.eraseP (fun kv => kv.1 == k)

/-! ### Node data model (`node.py`) -/

/-- `NodeType` enum of `node.py`. -/
inductive NodeType where
  | ID
  | LABEL
  | PROPERTY
deriving DecidableEq, Repr

/-- `NodeSchema` of `node.py`.  The two position-keyed dicts are association
lists in insertion order; `nodeSubLabels` is the sub-label set in iteration
order. -/
structure NodeSchema where
  entryToField : List (Nat × NodeType) := []
  nodeSubLabels : List String := []
  nodeGlobalLabel : Option String := none
  nodeProperty : List (Nat × String × String) := []
  hasSubLabels : Bool := false
  subLabelsPosition : Option Nat := none
deriving DecidableEq, Repr

namespace NodeSchema

def addEntry (s : NodeSchema) (position : Nat) (fieldType : NodeType) : NodeSchema :=
  { s with entryToField := s.entryToField ++ [(position, fieldType)] }

def addProperty (s : NodeSchema) (position : Nat) (propertyName propertyType : String) :
    NodeSchema :=
  { s with nodeProperty := s.nodeProperty ++ [(position, propertyName, propertyType)] }

/-- `set.add`: deduplicating insertion. -/
def addSubLabel (s : NodeSchema) (label : String) : NodeSchema :=
  if label ∈ s.nodeSubLabels then s
  else { s with nodeSubLabels := s.nodeSubLabels ++ [label] }

def setGlobalLabel (s : NodeSchema) (label : String) : NodeSchema :=
  { s with nodeGlobalLabel := some label }

def setSubLabelPosition (s : NodeSchema) (position : Nat) : NodeSchema :=
  { s with hasSubLabels := true, subLabelsPosition := some position }

/-- `self.entryToField[position]`, `KeyError` as `none`. -/
def getEntryType (s : NodeSchema) (position : Nat) : Option NodeType :=
  (s.entryToField.find? (fun e => e.1 == position)).map (·.2)

/-- `self.nodeProperty[position][0]`, `KeyError` as `none`. -/
def getPropertyName (s : NodeSchema) (position : Nat) : Option String :=
  (s.nodeProperty.find? (fun e => e.1 == position)).map (·.2.1)

/-- Linear search of `nodeProperty` values by name; raises when absent. -/
def getPropertyType (s : NodeSchema) (propertyName : String) : Except String String :=
  match s.nodeProperty.find? (fun e => e.2.1 == propertyName) with
  | some e => .ok e.2.2
  | none => .error ("property " ++ propertyName ++ " not found in node schema")

end NodeSchema

/-- `Node` of `node.py`: identifier, label, `OrderedDict` of properties. -/
structure Node where
  id : Option String := none
  label : Option String := none
  property : List (String × PyVal) := []
deriving DecidableEq, Repr

/-- `mapToSouffleType` of `node.py` (and identically of `relation.py`). -/
def mapToSouffleType (propertyType : String) : String :=
  if propertyType = "STRING" then "symbol"
  else if propertyType = "LONG" then "unsigned"
  else if propertyType = "INT" then "unsigned"
  else "symbol"

/-- One header attribute of `createNodeSchema`'s classification loop. -/
def nodeHeaderStep (s : NodeSchema) (pa : Nat × String) : Except String NodeSchema :=
  let position := pa.1
  let attrStr := pa.2
  if pyInStr ":ID" attrStr then
    let s := s.addEntry position .ID
    let groupLabel := findParenGroups attrStr.toList
    match groupLabel with
    | [g] => .ok (s.setGlobalLabel g)
    | _ => .error "Error: too many (LABEL) found in the input data file"
  else if pyInStr ":LABEL" attrStr then
    .ok ((s.addEntry position .LABEL).setSubLabelPosition position)
  else
    let s := s.addEntry position .PROPERTY
    if pyInStr ":" attrStr then
      let parts := pySplit ':' attrStr
      let propertyName := parts.headD ""
      let propertyType := mapToSouffleType (parts.getD 1 "")
      .ok (s.addProperty position propertyName propertyType)
    else
      .ok (s.addProperty position attrStr "unsigned")

/-- Sub-label collection scan of `createNodeSchema` (`row.split("|")[labelPos]`
can raise `IndexError`). -/
def collectSubLabels (labelPos : Nat) (rows : List String) (s : NodeSchema) :
    Except String NodeSchema :=
  rows.foldlM
    (fun s row =>
      match (pySplit '|' row).get? labelPos with
      | some subLabel => .ok (s.addSubLabel subLabel)
      | none => .error "IndexError: list index out of range")
    s

/-- `createNodeSchema` of `node.py`.  `lines` is the input file as a list of
newline-stripped lines; the first line is the header. -/
def createNodeSchema (lines : List String) (label : Option String) :
    Except String NodeSchema := do
  let s : NodeSchema := {}
  let s := if pyTruthy label then { s with nodeGlobalLabel := label } else s
  let fileHeader := pySplit '|' (lines.headD "")
  let s ← fileHeader.enum.foldlM nodeHeaderStep s
  if s.hasSubLabels then
    match s.subLabelsPosition with
    | some labelPos => collectSubLabels labelPos lines.tail s
    | none => .ok s
  else
    .ok s

/-- One column of `createNodes`'s row loop: dispatch on the schema's field
kind, apply the null substitution for properties (`"NULL"` for `symbol`,
integer `0` otherwise), store the value. -/
def nodeRowStep (nodeSchema : NodeSchema) (node : Node) (pv : Nat × String) :
    Except String Node := do
  let position := pv.1
  let value := pv.2
  match nodeSchema.getEntryType position with
  | some .ID => .ok { node with id := some value }
  | some .LABEL => .ok { node with label := some value }
  | some .PROPERTY =>
    match nodeSchema.getPropertyName position with
    | some propertyName => do
      let propertyType ← nodeSchema.getPropertyType propertyName
      let value : PyVal :=
        if value = "" then
          if propertyType = "symbol" then .str "NULL" else .int 0
        else .str value
      .ok { node with property := odSet propertyName value node.property }
    | none => .error "KeyError: position not in nodeProperty"
  | none => .error "KeyError: position not in entryToField"

/-- The property-renaming loop at the end of `createNodes`: for each name in
the captured name list, read its value, `pop` the old entry and store the
value under `nodeLabel + name.capitalize()`.  The `none` branch of the lookup
is unreachable in `createNodes` (the names are the dictionary's own keys). -/
def renameLoop (nodeLabel : String) :
    List String → List (String × PyVal) → List (String × PyVal)
  | [], props => props
  | propertyName :: rest, props =>
    match odGet propertyName props with
    | some propertyValue =>
      renameLoop nodeLabel rest
        (odSet (nodeLabel ++ strCapitalize propertyName) propertyValue
          (odRemove propertyName props))
    | none => renameLoop nodeLabel rest props

/-- The per-row postlude of `createNodes`: a row that carried a sub-label
(`label != None`, including the empty string) has every property renamed with
that label; otherwise the schema's global label becomes the node's label. -/
def finalizeNode (nodeSchema : NodeSchema) (node : Node) : Node :=
  match node.label with
  | some nodeLabel =>
    { node with
      property := renameLoop nodeLabel (node.property.map Prod.fst) node.property }
  | none => { node with label := nodeSchema.nodeGlobalLabel }

/-- `createNodes` of `node.py`: skip the header, materialize one `Node` per
data row. -/
def createNodes (lines : List String) (nodeSchema : NodeSchema) :
    Except String (List Node) :=
  lines.tail.mapM (fun row => do
    let rowData := pySplit '|' row
    let node ← rowData.enum.foldlM (nodeRowStep nodeSchema) ({} : Node)
    .ok (finalizeNode nodeSchema node))

/-! ### Node fact emission (`node.py` output helpers, file routing from
`cli_utils.py`) -/

/-- `writeColumnBasedNodeIdentifierFacts`: the line appended to
`{label}.facts` (`TypeError` when the identifier was never set). -/
def writeColumnBasedNodeIdentifierFacts (node : Node) : Except String String :=
  match node.id with
  | some identifier => .ok (identifier ++ "\n")
  | none => .error "TypeError: unsupported operand type for +: NoneType and str"

/-- `writeColumnBasedNodePropertyFacts`: the line appended to
`{propertyName}.facts` for one stored property. -/
def writeColumnBasedNodePropertyFacts (node : Node) (propertyName : String) :
    Except String String :=
  match node.id, odGet propertyName node.property with
  | some identifier, some propertyValue => do
    let v ← pyStrAdd "\t" propertyValue
    .ok (identifier ++ v ++ "\n")
  | _, none => .error "KeyError: property not found"
  | none, _ => .error "TypeError: unsupported operand type for +: NoneType and str"

/-- The fact files that the column-based branch of `node_fact_process`
(`cli_utils.py`) appends property lines of `node` to: one
`{propertyName}.facts` per stored (already renamed) property. -/
def columnFactFiles (node : Node) : List String :=
  node.property.map (fun kv => kv.1 ++ ".facts")

/-- The `for _, value in propertyMapping.items(): output += "\t" + value`
loop shared by `writeRowBasedNodeFacts` and `writeRelationFacts`. -/
def writeValuesLoop (output : String) : List (String × PyVal) → Except String String
  | [] => .ok output
  | kv :: rest => do
    let piece ← pyStrAdd "\t" kv.2
    writeValuesLoop (output ++ piece) rest

/-- `writeRowBasedNodeFacts`: the single line appended to `{label}.facts` —
the identifier followed by `"\t" + value` for every stored property value.
Concatenating a stored integer (the null sentinel for number-typed values)
raises `TypeError`; nothing is written then. -/
def writeRowBasedNodeFacts (node : Node) (nodeSchema : NodeSchema) :
    Except String String :=
  match node.id with
  | none => .error "TypeError: unsupported operand type for +: NoneType and str"
  | some identifier => do
    let output ← writeValuesLoop identifier node.property
    .ok (output ++ "\n")

/-! ### Output-file model and the node declaration writers (`node.py`) -/

/-- A writer acting on an output file: it maps the file's current contents to
the new contents plus an optional raised exception (writes already flushed
stay in the file when an exception interrupts the writer). -/
def Emit : Type := String → String × Option String

/-- `outputFile.write(x)`. -/
def emitStr (x : String) : Emit := fun buf => (buf ++ x, none)

/-- A no-op writer. -/
def emitNop : Emit := fun buf => (buf, none)

/-- A raised exception: nothing further is written. -/
def emitFail (e : String) : Emit := fun buf => (buf, some e)

/-- Sequential composition; an exception in the first writer skips the
second. -/
def emitSeq (a b : Emit) : Emit := fun buf =>
  match a buf with
  | (bufA, none) => b bufA
  | (bufA, some e) => (bufA, some e)

/-- A `for` loop of writers. -/
def emitFor (f : α → Emit) : List α → Emit
  | [] => emitNop
  | x :: xs => emitSeq (f x) (emitFor f xs)

/-- `writeColumnBasedNodePropertyDeclHelper` of `node.py`.  With sub-labels
the declared name is `subLabel + propertyName` (no capitalization); without
sub-labels the global-label containment check decides between
`globalLabel + propertyName.capitalize()` and the bare name.  Calling
`.lower()` on an absent global label raises. -/
def writeColumnBasedNodePropertyDeclHelper (nodeSchema : NodeSchema) : Emit :=
  emitFor
    (fun valueTuple =>
      let propertyName := valueTuple.2.1
      let propertyType := valueTuple.2.2
      if nodeSchema.hasSubLabels then
        emitFor
          (fun subLabel =>
            let newPropertyName := subLabel ++ propertyName
            emitSeq (emitStr (".decl " ++ newPropertyName ++ "(id:unsigned, " ++
                newPropertyName ++ ":" ++ propertyType ++ ")\n"))
              (emitSeq (emitStr (".input " ++ newPropertyName ++
                  "(IO=file, filename=\"" ++ newPropertyName ++ ".facts\")\n"))
                (emitStr "\n")))
          nodeSchema.nodeSubLabels
      else
        match nodeSchema.nodeGlobalLabel with
        | none => emitFail "AttributeError: NoneType object has no attribute lower"
        | some nodeLabel =>
          if pyInStr (pyLower nodeLabel) (pyLower propertyName) then
            emitSeq (emitStr (".decl " ++ propertyName ++ "(id:unsigned, " ++
                propertyName ++ ":" ++ propertyType ++ ")\n"))
              (emitSeq (emitStr (".input " ++ propertyName ++
                  "(IO=file, filename=\"" ++ propertyName ++ ".facts\")\n"))
                (emitStr "\n"))
          else
            let capName := strCapitalize propertyName
            emitSeq (emitStr (".decl " ++ nodeLabel ++ capName ++ "(id:unsigned, " ++
                nodeLabel ++ capName ++ ":" ++ propertyType ++ ")\n"))
              (emitSeq (emitStr (".input " ++ nodeLabel ++ capName ++
                  "(IO=file, filename=\"" ++ nodeLabel ++ capName ++ ".facts\")\n"))
                (emitStr "\n")))
    nodeSchema.nodeProperty

/-- `writeColumnBasedNodePropertyUnionDeclHelper` of `node.py`: per property,
with sub-labels, a head declaration `globalLabel + capitalize(name)` and one
union rule per sub-label whose body is `subLabel + capitalize(name)`; a
trailing blank line is written per property in every case. -/
def writeColumnBasedNodePropertyUnionDeclHelper (nodeSchema : NodeSchema) : Emit :=
  emitFor
    (fun valueTuple =>
      let propertyName := valueTuple.2.1
      let propertyType := valueTuple.2.2
      emitSeq
        (if nodeSchema.hasSubLabels then
          let capName := strCapitalize propertyName
          let globalLabel := pyStrOfOpt nodeSchema.nodeGlobalLabel
          emitSeq (emitStr (".decl " ++ globalLabel ++ capName ++ "(id:unsigned, " ++
              capName ++ ":" ++ propertyType ++ ")\n"))
            (emitFor
              (fun subLabel =>
                emitStr (globalLabel ++ capName ++ "(id, " ++ capName ++ ") :- " ++
                  subLabel ++ capName ++ "(id, " ++ capName ++ ").\n"))
              nodeSchema.nodeSubLabels)
        else emitNop)
        (emitStr "\n"))
    nodeSchema.nodeProperty

/-- `writeColumnBasedNodeIdDeclHelper` of `node.py`: one unary declaration
plus input directive per applicable label, then, with sub-labels, the global
unary declaration and one identifier union rule per sub-label. -/
def writeColumnBasedNodeIdDeclHelper (nodeSchema : NodeSchema) : Emit :=
  let nodeLabelSets :=
    if nodeSchema.hasSubLabels then nodeSchema.nodeSubLabels
    else [pyStrOfOpt nodeSchema.nodeGlobalLabel]
  emitSeq
    (emitFor
      (fun label =>
        emitSeq (emitStr (".decl " ++ label ++ "(id:unsigned)\n"))
          (emitSeq (emitStr (".input " ++ label ++ "(IO=file, filename=\"" ++
              label ++ ".facts\")\n"))
            (emitStr "\n")))
      nodeLabelSets)
    (if nodeSchema.hasSubLabels then
      let globalLabel := pyStrOfOpt nodeSchema.nodeGlobalLabel
      emitSeq (emitStr (".decl " ++ globalLabel ++ "(id:unsigned)\n"))
        (emitSeq
          (emitFor
            (fun subLabel => emitStr (globalLabel ++ "(id):- " ++ subLabel ++ "(id).\n"))
            nodeSchema.nodeSubLabels)
          (emitStr "\n"))
    else emitNop)

/-- `writeColumnBasedNodeDeclaration` of `node.py`: identifier layer, then
property layer, then union layer. -/
def writeColumnBasedNodeDeclaration (nodeSchema : NodeSchema) : Emit :=
  emitSeq (writeColumnBasedNodeIdDeclHelper nodeSchema)
    (emitSeq (writeColumnBasedNodePropertyDeclHelper nodeSchema)
      (writeColumnBasedNodePropertyUnionDeclHelper nodeSchema))

/-- The `", name:type"` column list of a row-based declaration. -/
def rowDeclColumns (nodeProperty : List (Nat × String × String)) : String :=
  strJoin (nodeProperty.map (fun valueTuple =>
    ", " ++ valueTuple.2.1 ++ ":" ++ valueTuple.2.2))

/-- The `", name"` argument list of a row-based union rule. -/
def rowRuleArgs (nodeProperty : List (Nat × String × String)) : String :=
  strJoin (nodeProperty.map (fun valueTuple => ", " ++ valueTuple.2.1))

/-- `writeRowBasedNodeDeclaration` of `node.py`: one wide declaration plus
input directive per applicable label; with sub-labels additionally the global
wide declaration and one full-width union rule per sub-label. -/
def writeRowBasedNodeDeclaration (nodeSchema : NodeSchema) : Emit :=
  let nodeLabelSets :=
    if nodeSchema.hasSubLabels then nodeSchema.nodeSubLabels
    else [pyStrOfOpt nodeSchema.nodeGlobalLabel]
  emitSeq
    (emitFor
      (fun label =>
        emitSeq (emitStr (".decl " ++ label ++ "(id:unsigned" ++
            rowDeclColumns nodeSchema.nodeProperty ++ ")\n"))
          (emitSeq (emitStr (".input " ++ label ++ "(IO=file, filename=\"" ++
              label ++ ".facts\")\n"))
            (emitStr "\n")))
      nodeLabelSets)
    (if nodeSchema.hasSubLabels then
      let globalLabel := pyStrOfOpt nodeSchema.nodeGlobalLabel
      emitSeq (emitStr (".decl " ++ globalLabel ++ "(id:unsigned" ++
          rowDeclColumns nodeSchema.nodeProperty ++ ")\n"))
        (emitSeq
          (emitFor
            (fun subLabel =>
              emitStr (globalLabel ++ "(id" ++ rowRuleArgs nodeSchema.nodeProperty ++
                "):- " ++ subLabel ++ "(id" ++ rowRuleArgs nodeSchema.nodeProperty ++
                ").\n"))
            nodeSchema.nodeSubLabels)
          (emitStr "\n"))
    else emitNop)


/-! ### Generic facts about writers -/

/-- A writer is buffer-independent: it appends a fixed text to the file and
raises a fixed (possibly absent) exception, regardless of the file's prior
contents. -/
def EmitIndep (a : Emit) : Prop :=
  ∃ t e, ∀ buf, a buf = (buf ++ t, e)

/-- The fixed text and exception of a buffer-independent writer are its
effect on the empty file. -/
theorem EmitIndep.eval {a : Emit} (h : EmitIndep a) (buf : String) :
    a buf = (buf ++ (a "").1, (a "").2) := by
  obtain ⟨t, e, ht⟩ := h
  rw [ht buf, ht ""]
  simp [String.empty_append]

theorem emitStr_indep (x : String) : EmitIndep (emitStr x) :=
  ⟨x, none, fun _ => rfl⟩

theorem emitNop_indep : EmitIndep emitNop :=
  ⟨"", none, fun buf => by simp [emitNop, String.append_empty]⟩

theorem emitFail_indep (e : String) : EmitIndep (emitFail e) :=
  ⟨"", some e, fun buf => by simp [emitFail, String.append_empty]⟩

theorem emitSeq_indep {a b : Emit} (ha : EmitIndep a) (hb : EmitIndep b) :
    EmitIndep (emitSeq a b) := by
  obtain ⟨ta, ea, hta⟩ := ha
  obtain ⟨tb, eb, htb⟩ := hb
  cases ea with
  | none =>
    exact ⟨ta ++ tb, eb, fun buf => by
      simp [emitSeq, hta buf, htb (buf ++ ta), String.append_assoc]⟩
  | some e =>
    exact ⟨ta, some e, fun buf => by simp [emitSeq, hta buf]⟩

theorem emitFor_indep {f : α → Emit} {xs : List α}
    (h : ∀ x ∈ xs, EmitIndep (f x)) : EmitIndep (emitFor f xs) := by
  induction xs with
  | nil => exact emitNop_indep
  | cons x xs ih =>
    exact emitSeq_indep (h x (by simp))
      (ih (fun y hy => h y (by simp [hy])))

/-- Evaluation of a sequence from an empty buffer when the first writer does
not raise. -/
theorem emitSeq_ok {a b : Emit} (ha : EmitIndep a) (hb : EmitIndep b)
    (he : (a "").2 = none) :
    emitSeq a b "" = ((a "").1 ++ (b "").1, (b "").2) := by
  obtain ⟨ta, ea, hta⟩ := ha
  obtain ⟨tb, eb, htb⟩ := hb
  have hea : ea = none := by rw [hta ""] at he; exact he
  subst hea
  simp only [emitSeq, hta, htb]
  simp [String.empty_append]

/-- Evaluation of a loop from an empty buffer when no element raises. -/
theorem emitFor_ok {f : α → Emit} {xs : List α}
    (hind : ∀ x ∈ xs, EmitIndep (f x))
    (herr : ∀ x ∈ xs, (f x "").2 = none) :
    emitFor f xs "" = (strJoin (xs.map (fun x => (f x "").1)), none) := by
  induction xs with
  | nil => simp [emitFor, emitNop, strJoin]
  | cons x xs ih =>
    have hx := hind x (by simp)
    have hex := herr x (by simp)
    have hfor : EmitIndep (emitFor f xs) :=
      emitFor_indep (fun y hy => hind y (by simp [hy]))
    have ih2 := ih (fun y hy => hind y (by simp [hy])) (fun y hy => herr y (by simp [hy]))
    show emitSeq (f x) (emitFor f xs) "" = _
    rw [emitSeq_ok hx hfor hex, ih2]
    simp [strJoin]

/-- Sequencing three `emitStr`s is buffer-independent. -/
theorem emitStr3_indep (x y z : String) :
    EmitIndep (emitSeq (emitStr x) (emitSeq (emitStr y) (emitStr z))) :=
  emitSeq_indep (emitStr_indep x) (emitSeq_indep (emitStr_indep y) (emitStr_indep z))

theorem writeColumnBasedNodePropertyDeclHelper_indep (s : NodeSchema) :
    EmitIndep (writeColumnBasedNodePropertyDeclHelper s) := by
  apply emitFor_indep
  intro vt _
  dsimp only
  split
  · exact emitFor_indep (fun sub _ => emitStr3_indep _ _ _)
  · cases s.nodeGlobalLabel with
    | none => exact emitFail_indep _
    | some g =>
      dsimp only
      split
      · exact emitStr3_indep _ _ _
      · exact emitStr3_indep _ _ _

theorem writeColumnBasedNodePropertyUnionDeclHelper_indep (s : NodeSchema) :
    EmitIndep (writeColumnBasedNodePropertyUnionDeclHelper s) := by
  apply emitFor_indep
  intro vt _
  dsimp only
  apply emitSeq_indep
  · split
    · exact emitSeq_indep (emitStr_indep _)
        (emitFor_indep (fun sub _ => emitStr_indep _))
    · exact emitNop_indep
  · exact emitStr_indep _

theorem writeColumnBasedNodeIdDeclHelper_indep (s : NodeSchema) :
    EmitIndep (writeColumnBasedNodeIdDeclHelper s) := by
  unfold writeColumnBasedNodeIdDeclHelper
  apply emitSeq_indep
  · exact emitFor_indep (fun label _ => emitStr3_indep _ _ _)
  · split
    · exact emitSeq_indep (emitStr_indep _)
        (emitSeq_indep (emitFor_indep (fun sub _ => emitStr_indep _)) (emitStr_indep _))
    · exact emitNop_indep

theorem writeColumnBasedNodeDeclaration_indep (s : NodeSchema) :
    EmitIndep (writeColumnBasedNodeDeclaration s) :=
  emitSeq_indep (writeColumnBasedNodeIdDeclHelper_indep s)
    (emitSeq_indep (writeColumnBasedNodePropertyDeclHelper_indep s)
      (writeColumnBasedNodePropertyUnionDeclHelper_indep s))

theorem writeRowBasedNodeDeclaration_indep (s : NodeSchema) :
    EmitIndep (writeRowBasedNodeDeclaration s) := by
  unfold writeRowBasedNodeDeclaration
  apply emitSeq_indep
  · exact emitFor_indep (fun label _ => emitStr3_indep _ _ _)
  · split
    · exact emitSeq_indep (emitStr_indep _)
        (emitSeq_indep (emitFor_indep (fun sub _ => emitStr_indep _)) (emitStr_indep _))
    · exact emitNop_indep


/-! ### Relation data model (`relation.py`) -/

/-- `RelationType` enum of `relation.py`. -/
inductive RelationType where
  | START_ID
  | END_ID
  | PROPERTY
deriving DecidableEq, Repr

/-- `RelationSchema` of `relation.py`.  The Python `sourceName` dict has the
two keys `"start"` and `"target"`, modelled by the two optional fields
`sourceName` and `targetName`. -/
structure RelationSchema where
  entryToField : List (Nat × RelationType) := []
  relationGlobalLabel : Option String := none
  relationProperty : List (Nat × String × String) := []
  sourceName : Option String := none
  targetName : Option String := none
deriving DecidableEq, Repr

namespace RelationSchema

def addEntry (s : RelationSchema) (position : Nat) (fieldType : RelationType) :
    RelationSchema :=
  { s with entryToField := s.entryToField ++ [(position, fieldType)] }

def addProperty (s : RelationSchema) (position : Nat)
    (propertyName propertyType : String) : RelationSchema :=
  { s with relationProperty := s.relationProperty ++ [(position, propertyName, propertyType)] }

def setGlobalLabel (s : RelationSchema) (label : String) : RelationSchema :=
  { s with relationGlobalLabel := some label }

/-- `self.sourceName["start"] = name`. -/
def setSourceName (s : RelationSchema) (name : String) : RelationSchema :=
  { s with sourceName := some name }

/-- `self.sourceName["target"] = name`. -/
def setTargetName (s : RelationSchema) (name : String) : RelationSchema :=
  { s with targetName := some name }

/-- `self.entryToField[position]`, `KeyError` as `none`. -/
def getEntryType (s : RelationSchema) (position : Nat) : Option RelationType :=
  (s.entryToField.find? (fun e => e.1 == position)).map (·.2)

/-- `self.sourceName["start"]`; `KeyError` when never set. -/
def getSourceName (s : RelationSchema) : Except String String :=
  match s.sourceName with
  | some n => .ok n
  | none => .error "KeyError: start"

/-- `self.sourceName["target"]`; `KeyError` when never set. -/
def getTargetName (s : RelationSchema) : Except String String :=
  match s.targetName with
  | some n => .ok n
  | none => .error "KeyError: target"

/-- `self.relationProperty[position][0]`, `KeyError` as `none`. -/
def getPropertyName (s : RelationSchema) (position : Nat) : Option String :=
  (s.relationProperty.find? (fun e => e.1 == position)).map (·.2.1)

/-- `self.relationProperty[position][1]`, `KeyError` as `none`. -/
def getPropertyTypeByPosition (s : RelationSchema) (position : Nat) : Option String :=
  (s.relationProperty.find? (fun e => e.1 == position)).map (·.2.2)

/-- Linear search of `relationProperty` values by name; raises when absent. -/
def getPropertyTypeByName (s : RelationSchema) (propertyName : String) :
    Except String String :=
  match s.relationProperty.find? (fun e => e.2.1 == propertyName) with
  | some e => .ok e.2.2
  | none => .error ("property " ++ propertyName ++ " not found in relation schema")

/-- Ascending insertion into a sorted list of positions (`list.sort()`). -/
def insertAsc (n : Nat) : List Nat → List Nat
  | [] => [n]
  | m :: ms => if n ≤ m then n :: m :: ms else m :: insertAsc n ms

/-- Insertion sort of the position list (`positionList.sort()`). -/
def sortAsc : List Nat → List Nat
  | [] => []
  | n :: ns => insertAsc n (sortAsc ns)

/-- `getPropertyNames`: property names in ascending position order. -/
def getPropertyNames (s : RelationSchema) : List String :=
  (sortAsc (s.relationProperty.map Prod.fst)).filterMap
    (fun k => (s.relationProperty.find? (fun e => e.1 == k)).map (·.2.1))

end RelationSchema

/-- `Relation` of `relation.py`. -/
structure Relation where
  label : Option String := none
  startId : Option String := none
  endId : Option String := none
  property : List (String × PyVal) := []
deriving DecidableEq, Repr

/-- One header attribute of `createRelationSchema`'s classification loop.
Note the `END_ID` branch without a parenthetical annotation calls
`setSourceName("endId")`, exactly as the source does. -/
def relationHeaderStep (s : RelationSchema) (pa : Nat × String) :
    Except String RelationSchema :=
  let position := pa.1
  let attrStr := pa.2
  if pyInStr "START_ID" attrStr then
    let s := s.addEntry position .START_ID
    match findParenGroups attrStr.toList with
    | [g] => .ok (s.setSourceName (g ++ "Id"))
    | _ => .ok (s.setSourceName "startId")
  else if pyInStr "END_ID" attrStr then
    let s := s.addEntry position .END_ID
    match findParenGroups attrStr.toList with
    | [g] => .ok (s.setTargetName (g ++ "Id"))
    | _ => .ok (s.setSourceName "endId")
  else
    let s := s.addEntry position .PROPERTY
    if pyInStr ":" attrStr then
      let parts := pySplit ':' attrStr
      .ok (s.addProperty position (parts.headD "") (mapToSouffleType (parts.getD 1 "")))
    else
      .ok (s.addProperty position attrStr "unsigned")

/-- `createRelationSchema` of `relation.py`: requires a truthy label, then
classifies the header columns. -/
def createRelationSchema (lines : List String) (label : Option String) :
    Except String RelationSchema := do
  let s : RelationSchema := {}
  let s ←
    if pyTruthy label then .ok { s with relationGlobalLabel := label }
    else .error "Error: please supply relation label through cli option."
  (pySplit '|' (lines.headD "")).enum.foldlM relationHeaderStep s

/-- One column of `createRelation`'s row loop, with the null substitution
(`"NULL"` for `symbol`, integer `0` for `unsigned`, anything else raises). -/
def relationRowStep (relationSchema : RelationSchema) (r : Relation)
    (pv : Nat × String) : Except String Relation := do
  let position := pv.1
  let value := pv.2
  match relationSchema.getEntryType position with
  | some .START_ID => .ok { r with startId := some value }
  | some .END_ID => .ok { r with endId := some value }
  | some .PROPERTY =>
    match relationSchema.getPropertyName position,
        relationSchema.getPropertyTypeByPosition position with
    | some propertyName, some propertyType => do
      let value : PyVal ←
        if value = "" then
          if propertyType = "symbol" then .ok (.str "NULL")
          else if propertyType = "unsigned" then .ok (.int 0)
          else .error ("Warning: Unknown property type " ++ propertyType ++
            " found in relation schema")
        else .ok (.str value)
      .ok { r with property := odSet propertyName value r.property }
    | _, _ => .error "KeyError: position not in relationProperty"
  | none => .error "KeyError: position not in entryToField"

/-- `createRelation` of `relation.py`: skip the header, materialize one
`Relation` per data row; an unlabelled relation receives the schema's global
label. -/
def createRelation (lines : List String) (relationSchema : RelationSchema) :
    Except String (List Relation) :=
  lines.tail.mapM (fun row => do
    let rowData := pySplit '|' row
    let r ← rowData.enum.foldlM (relationRowStep relationSchema) ({} : Relation)
    match r.label with
    | none => .ok { r with label := relationSchema.relationGlobalLabel }
    | some _ => .ok r)

/-- `writeRelationDeclation` of `relation.py`: the declaration text written
for one relation schema (raises `KeyError` when an endpoint name was never
recorded). -/
def writeRelationDeclation (relationSchema : RelationSchema) :
    Except String String := do
  let globalLabel := pyStrOfOpt relationSchema.relationGlobalLabel
  let sourceName ← relationSchema.getSourceName
  let targetName ← relationSchema.getTargetName
  let propertyNameList := relationSchema.getPropertyNames
  let propPart ← propertyNameList.foldlM
    (fun acc propertyName => do
      let propertyType ← relationSchema.getPropertyTypeByName propertyName
      .ok (acc ++ ", " ++ propertyName ++ ":" ++ propertyType))
    ""
  .ok (".decl " ++ globalLabel ++ "(" ++ sourceName ++ ":unsigned, " ++
    targetName ++ ":unsigned" ++ propPart ++ ")\n" ++
    ".input " ++ globalLabel ++ "(IO=file, filename=\"" ++ globalLabel ++
    ".facts\")\n")

/-- `writeRelationFacts` of `relation.py`: the single line appended to
`{label}.facts` — `sourceId`, `targetId`, then `"\t" + value` per stored
property.  Concatenating a stored integer raises `TypeError`. -/
def writeRelationFacts (r : Relation) : Except String String :=
  match r.startId, r.endId with
  | some startId, some endId => do
    let output ← writeValuesLoop (startId ++ "\t" ++ endId) r.property
    .ok (output ++ "\n")
  | _, _ => .error "TypeError: unsupported operand type for +: NoneType and str"


end Kaeru

deriving instance DecidableEq for Except

namespace Kaeru

/-! ## Claim theorems -/

/-- C1: for the row-based schema with properties `p1:STRING`, `p2:LONG` and
the data rows `0|a|5` and `1||`, the first fact line is `0\ta\t5\n` as the
claim states, but the second row stores the Python integer `0` for the empty
unsigned value, so `writeRowBasedNodeFacts` raises `TypeError` instead of
emitting `1\tNULL\t0`. -/
theorem claim_C1_empty_unsigned_crashes_row_facts :
    createNodeSchema ["id:ID(L)|p1:STRING|p2:LONG"] (some "L") =
      .ok { entryToField := [(0, .ID), (1, .PROPERTY), (2, .PROPERTY)],
            nodeGlobalLabel := some "L",
            nodeProperty := [(1, "p1", "symbol"), (2, "p2", "unsigned")] } ∧
    createNodes ["id:ID(L)|p1:STRING|p2:LONG", "0|a|5", "1||"]
        { entryToField := [(0, .ID), (1, .PROPERTY), (2, .PROPERTY)],
          nodeGlobalLabel := some "L",
          nodeProperty := [(1, "p1", "symbol"), (2, "p2", "unsigned")] } =
      .ok [{ id := some "0", label := some "L",
             property := [("p1", .str "a"), ("p2", .str "5")] },
           { id := some "1", label := some "L",
             property := [("p1", .str "NULL"), ("p2", .int 0)] }] ∧
    writeRowBasedNodeFacts
        { id := some "0", label := some "L",
          property := [("p1", .str "a"), ("p2", .str "5")] }
        { entryToField := [(0, .ID), (1, .PROPERTY), (2, .PROPERTY)],
          nodeGlobalLabel := some "L",
          nodeProperty := [(1, "p1", "symbol"), (2, "p2", "unsigned")] } =
      .ok "0\ta\t5\n" ∧
    writeRowBasedNodeFacts
        { id := some "1", label := some "L",
          property := [("p1", .str "NULL"), ("p2", .int 0)] }
        { entryToField := [(0, .ID), (1, .PROPERTY), (2, .PROPERTY)],
          nodeGlobalLabel := some "L",
          nodeProperty := [(1, "p1", "symbol"), (2, "p2", "unsigned")] } =
      .error "TypeError: can only concatenate str (not int) to str" := by
  refine ⟨by decide, by decide, by decide, by decide⟩

/-- C5: `createNodeSchema` raises the malformed-header error already when the
identifier column carries zero parenthetical groups (the `else` branch covers
every count other than one), contradicting the claim that zero groups succeed
with the caller-supplied label; with exactly one group the group text becomes
the global label. -/
theorem claim_C5_zero_groups_rejected :
    createNodeSchema ["id:ID|name:STRING"] (some "L") =
      .error "Error: too many (LABEL) found in the input data file" ∧
    createNodeSchema ["id:ID(Person)|name:STRING"] (some "L") =
      .ok { entryToField := [(0, .ID), (1, .PROPERTY)],
            nodeGlobalLabel := some "Person",
            nodeProperty := [(1, "name", "symbol")] } := by
  refine ⟨by decide, by decide⟩

/-- C6: for an `END_ID` header without a parenthetical annotation,
`createRelationSchema` calls `setSourceName("endId")`, so the source name is
overwritten with `"endId"`, `targetName` is never set, and
`writeRelationDeclation` raises `KeyError` instead of declaring
`endId:unsigned` as the claim states. -/
theorem claim_C6_endid_default_sets_source_name :
    createRelationSchema ["s:START_ID|t:END_ID|weight:LONG"] (some "Knows") =
      .ok { entryToField := [(0, .START_ID), (1, .END_ID), (2, .PROPERTY)],
            relationGlobalLabel := some "Knows",
            relationProperty := [(2, "weight", "unsigned")],
            sourceName := some "endId",
            targetName := none } ∧
    writeRelationDeclation
        { entryToField := [(0, .START_ID), (1, .END_ID), (2, .PROPERTY)],
          relationGlobalLabel := some "Knows",
          relationProperty := [(2, "weight", "unsigned")],
          sourceName := some "endId",
          targetName := none } =
      .error "KeyError: target" := by
  refine ⟨by decide, by decide⟩

/-- C2: for the schema with sub-label `A` and property `score`, the
column-based property layer declares relation and fact file `Ascore`
(`subLabel + propertyName`, uncapitalized), while materialization stores the
property under the renamed key `AScore` (`subLabel + capitalize(name)`), so
the fact emitter appends to `AScore.facts`, not to the declared
`Ascore.facts`. -/
theorem claim_C2_decl_name_mismatches_fact_file :
    createNodeSchema ["id:ID(Org)|:LABEL|score:STRING", "0|A|x"] none =
      .ok { entryToField := [(0, .ID), (1, .LABEL), (2, .PROPERTY)],
            nodeSubLabels := ["A"],
            nodeGlobalLabel := some "Org",
            nodeProperty := [(2, "score", "symbol")],
            hasSubLabels := true,
            subLabelsPosition := some 1 } ∧
    writeColumnBasedNodePropertyDeclHelper
        { entryToField := [(0, .ID), (1, .LABEL), (2, .PROPERTY)],
          nodeSubLabels := ["A"],
          nodeGlobalLabel := some "Org",
          nodeProperty := [(2, "score", "symbol")],
          hasSubLabels := true,
          subLabelsPosition := some 1 } "" =
      (".decl Ascore(id:unsigned, Ascore:symbol)\n" ++
        ".input Ascore(IO=file, filename=\"Ascore.facts\")\n\n", none) ∧
    createNodes ["id:ID(Org)|:LABEL|score:STRING", "0|A|x"]
        { entryToField := [(0, .ID), (1, .LABEL), (2, .PROPERTY)],
          nodeSubLabels := ["A"],
          nodeGlobalLabel := some "Org",
          nodeProperty := [(2, "score", "symbol")],
          hasSubLabels := true,
          subLabelsPosition := some 1 } =
      .ok [{ id := some "0", label := some "A",
             property := [("AScore", .str "x")] }] ∧
    columnFactFiles
        { id := some "0", label := some "A",
          property := [("AScore", .str "x")] } = ["AScore.facts"] ∧
    ("AScore.facts" : String) ≠ "Ascore.facts" := by
  refine ⟨by decide, by decide, by decide, by decide, by decide⟩

/-- C3 counterexample: for global label `Global`, sub-label `A` and property
`score`, the emitted union rule is
`GlobalScore(id, Score) :- AScore(id, Score).` — its body relation is
`AScore` (capitalized), not the `Ascore` that the claim states and that the
property layer actually declares; the text contains no occurrence of
`Ascore`. -/
theorem claim_C3_counterexample :
    writeColumnBasedNodePropertyUnionDeclHelper
        { entryToField := [(0, .ID), (1, .LABEL), (2, .PROPERTY)],
          nodeSubLabels := ["A"],
          nodeGlobalLabel := some "Global",
          nodeProperty := [(2, "score", "unsigned")],
          hasSubLabels := true,
          subLabelsPosition := some 1 } "" =
      (".decl GlobalScore(id:unsigned, Score:unsigned)\n" ++
        "GlobalScore(id, Score) :- AScore(id, Score).\n\n", none) ∧
    writeColumnBasedNodePropertyDeclHelper
        { entryToField := [(0, .ID), (1, .LABEL), (2, .PROPERTY)],
          nodeSubLabels := ["A"],
          nodeGlobalLabel := some "Global",
          nodeProperty := [(2, "score", "unsigned")],
          hasSubLabels := true,
          subLabelsPosition := some 1 } "" =
      (".decl Ascore(id:unsigned, Ascore:unsigned)\n" ++
        ".input Ascore(IO=file, filename=\"Ascore.facts\")\n\n", none) ∧
    pyInStr "Ascore"
      (".decl GlobalScore(id:unsigned, Score:unsigned)\n" ++
        "GlobalScore(id, Score) :- AScore(id, Score).\n\n") = false := by
  refine ⟨by decide, by decide, by decide⟩

/-- C4 counterexample: renaming with sub-label `A` turns the key `firstName`
into `AFirstname` — Python's `capitalize` lower-cases the tail — not into the
`AFirstName` the claim's example requires. -/
theorem claim_C4_counterexample :
    createNodes ["id:ID(G)|:LABEL|firstName:STRING", "0|A|x"]
        { entryToField := [(0, .ID), (1, .LABEL), (2, .PROPERTY)],
          nodeSubLabels := ["A"],
          nodeGlobalLabel := some "G",
          nodeProperty := [(2, "firstName", "symbol")],
          hasSubLabels := true,
          subLabelsPosition := some 1 } =
      .ok [{ id := some "0", label := some "A",
             property := [("AFirstname", .str "x")] }] ∧
    ("AFirstname" : String) ≠ "AFirstName" := by
  refine ⟨by decide, by decide⟩

/-- C9 counterexample: a relation materialized from the row `1|2|` (empty
`LONG`-typed `weight`) stores the Python integer `0`, and `writeRelationFacts`
then raises `TypeError` instead of emitting the fact line `1\t2\t0`. -/
theorem claim_C9_counterexample :
    createRelationSchema ["s:START_ID(A)|t:END_ID(B)|weight:LONG"] (some "Knows") =
      .ok { entryToField := [(0, .START_ID), (1, .END_ID), (2, .PROPERTY)],
            relationGlobalLabel := some "Knows",
            relationProperty := [(2, "weight", "unsigned")],
            sourceName := some "AId",
            targetName := some "BId" } ∧
    createRelation ["s:START_ID(A)|t:END_ID(B)|weight:LONG", "1|2|"]
        { entryToField := [(0, .START_ID), (1, .END_ID), (2, .PROPERTY)],
          relationGlobalLabel := some "Knows",
          relationProperty := [(2, "weight", "unsigned")],
          sourceName := some "AId",
          targetName := some "BId" } =
      .ok [{ label := some "Knows", startId := some "1", endId := some "2",
             property := [("weight", .int 0)] }] ∧
    writeRelationFacts
        { label := some "Knows", startId := some "1", endId := some "2",
          property := [("weight", .int 0)] } =
      .error "TypeError: can only concatenate str (not int) to str" ∧
    (Except.error "TypeError: can only concatenate str (not int) to str" :
      Except String String) ≠ .ok "1\t2\t0\n" := by
  refine ⟨by decide, by decide, by decide, by decide⟩

/-- C10 counterexample: a data row whose `:LABEL` column holds the empty
string materializes with label `""` (not the schema's global label `G`), and
its property `name` is renamed to `Name` (the empty sub-label plus the
capitalized key) rather than left unmodified. -/
theorem claim_C10_counterexample :
    createNodeSchema ["id:ID(G)|:LABEL|name:STRING", "7||alice"] none =
      .ok { entryToField := [(0, .ID), (1, .LABEL), (2, .PROPERTY)],
            nodeSubLabels := [""],
            nodeGlobalLabel := some "G",
            nodeProperty := [(2, "name", "symbol")],
            hasSubLabels := true,
            subLabelsPosition := some 1 } ∧
    createNodes ["id:ID(G)|:LABEL|name:STRING", "7||alice"]
        { entryToField := [(0, .ID), (1, .LABEL), (2, .PROPERTY)],
          nodeSubLabels := [""],
          nodeGlobalLabel := some "G",
          nodeProperty := [(2, "name", "symbol")],
          hasSubLabels := true,
          subLabelsPosition := some 1 } =
      .ok [{ id := some "7", label := some "",
             property := [("Name", .str "alice")] }] ∧
    (some "" : Option String) ≠ some "G" ∧
    (["Name"] : List String) ≠ ["name"] := by
  refine ⟨by decide, by decide, by decide, by decide⟩

/-- C7: both node declaration emitters are deterministic functions of the
schema: writing appends a text (and raises an exception status) that depends
only on the schema, never on the file's prior contents, so a second call on
the identical schema appends byte-identical output. -/
theorem claim_C7_declaration_deterministic (s : NodeSchema) (buf : String) :
    (writeColumnBasedNodeDeclaration s buf).1 =
        buf ++ (writeColumnBasedNodeDeclaration s "").1 ∧
    (writeColumnBasedNodeDeclaration s
        ((writeColumnBasedNodeDeclaration s buf).1)).1 =
        buf ++ (writeColumnBasedNodeDeclaration s "").1 ++
          (writeColumnBasedNodeDeclaration s "").1 ∧
    (writeColumnBasedNodeDeclaration s buf).2 =
        (writeColumnBasedNodeDeclaration s "").2 ∧
    (writeRowBasedNodeDeclaration s buf).1 =
        buf ++ (writeRowBasedNodeDeclaration s "").1 ∧
    (writeRowBasedNodeDeclaration s
        ((writeRowBasedNodeDeclaration s buf).1)).1 =
        buf ++ (writeRowBasedNodeDeclaration s "").1 ++
          (writeRowBasedNodeDeclaration s "").1 ∧
    (writeRowBasedNodeDeclaration s buf).2 =
        (writeRowBasedNodeDeclaration s "").2 := by
  have hc := (writeColumnBasedNodeDeclaration_indep s).eval
  have hr := (writeRowBasedNodeDeclaration_indep s).eval
  refine ⟨?_, ?_, ?_, ?_, ?_, ?_⟩
  · rw [hc buf]
  · rw [hc buf, hc (buf ++ (writeColumnBasedNodeDeclaration s "").1)]
  · rw [hc buf]
  · rw [hr buf]
  · rw [hr buf, hr (buf ++ (writeRowBasedNodeDeclaration s "").1)]
  · rw [hr buf]

/-- The value-appending loop on string-valued properties. -/
theorem writeValuesLoop_str (vals : List (String × String)) (acc : String) :
    writeValuesLoop acc (vals.map (fun kv => (kv.1, PyVal.str kv.2))) =
      .ok (acc ++ strJoin (vals.map (fun kv => "\t" ++ kv.2))) := by
  induction vals generalizing acc with
  | nil => simp [writeValuesLoop, strJoin, String.append_empty]
  | cons kv vals ih =>
    have hstep :
        writeValuesLoop acc ((kv :: vals).map (fun kv => (kv.1, PyVal.str kv.2))) =
          writeValuesLoop (acc ++ ("\t" ++ kv.2))
            (vals.map (fun kv => (kv.1, PyVal.str kv.2))) := rfl
    rw [hstep, ih]
    simp [strJoin, String.append_assoc]

/-- C9 (amended): a materialized relation all of whose stored property values
are strings (no empty number-typed raw value occurred) emits the fact line
`sourceId`, `targetId`, then every property value in storage order — which is
the schema's header column order — tab-separated and newline-terminated. -/
theorem claim_C9_fact_line_order (r : Relation) (src tgt : String)
    (vals : List (String × String))
    (hs : r.startId = some src) (ht : r.endId = some tgt)
    (hv : r.property = vals.map (fun kv => (kv.1, PyVal.str kv.2))) :
    writeRelationFacts r =
      .ok (src ++ "\t" ++ tgt ++
        strJoin (vals.map (fun kv => "\t" ++ kv.2)) ++ "\n") := by
  have h := writeValuesLoop_str vals (src ++ "\t" ++ tgt)
  unfold writeRelationFacts
  rw [hs, ht]
  dsimp only
  rw [hv, h]
  show Except.ok ((src ++ "\t" ++ tgt ++
      strJoin (vals.map (fun kv => "\t" ++ kv.2))) ++ "\n") = _
  simp [String.append_assoc]

/-- C9 witness: the claim's example — schema order `(source, target, weight)`
with values `1`, `2`, `7` — yields the fact line `1\t2\t7\n`. -/
theorem claim_C9_fact_line_order_witness :
    writeRelationFacts
        { label := some "Knows", startId := some "1", endId := some "2",
          property := [("weight", PyVal.str "7")] } =
      .ok "1\t2\t7\n" :=
  (claim_C9_fact_line_order
      { label := some "Knows", startId := some "1", endId := some "2",
        property := [("weight", PyVal.str "7")] }
      "1" "2" [("weight", "7")] rfl rfl rfl).trans (by decide)

/-- Evaluating a declaration/input/blank-line triple of writes. -/
theorem emitStr3_eval (x y z : String) :
    emitSeq (emitStr x) (emitSeq (emitStr y) (emitStr z)) "" = (x ++ y ++ z, none) := by
  show ((("" ++ x) ++ y) ++ z, none) = _
  simp [String.empty_append]

/-- C8: for a schema without sub-labels and global label `g`, the
column-based property layer declares, for each property in schema order,
`g ++ capitalize(name)` when `g` does not occur case-insensitively in the
property name, and the bare property name otherwise. -/
theorem claim_C8_property_layer_names (s : NodeSchema) (g : String)
    (hsub : s.hasSubLabels = false) (hg : s.nodeGlobalLabel = some g) :
    writeColumnBasedNodePropertyDeclHelper s "" =
      (strJoin (s.nodeProperty.map (fun vt =>
        if pyInStr (pyLower g) (pyLower vt.2.1) then
          ".decl " ++ vt.2.1 ++ "(id:unsigned, " ++ vt.2.1 ++ ":" ++ vt.2.2 ++
            ")\n" ++
          (".input " ++ vt.2.1 ++ "(IO=file, filename=\"" ++ vt.2.1 ++
            ".facts\")\n") ++ "\n"
        else
          ".decl " ++ g ++ strCapitalize vt.2.1 ++ "(id:unsigned, " ++ g ++
            strCapitalize vt.2.1 ++ ":" ++ vt.2.2 ++ ")\n" ++
          (".input " ++ g ++ strCapitalize vt.2.1 ++ "(IO=file, filename=\"" ++
            g ++ strCapitalize vt.2.1 ++ ".facts\")\n") ++ "\n")), none) := by
  simp only [writeColumnBasedNodePropertyDeclHelper, hsub, hg, Bool.false_eq_true,
    if_false]
  rw [emitFor_ok ?hind ?herr]
  case hind =>
    intro vt _
    dsimp only
    split
    · exact emitStr3_indep _ _ _
    · exact emitStr3_indep _ _ _
  case herr =>
    intro vt _
    dsimp only
    split
    · rfl
    · rfl
  have hfun :
      (fun vt : Nat × String × String =>
        ((if pyInStr (pyLower g) (pyLower vt.2.1) then
            emitSeq (emitStr (".decl " ++ vt.2.1 ++ "(id:unsigned, " ++ vt.2.1 ++
                ":" ++ vt.2.2 ++ ")\n"))
              (emitSeq (emitStr (".input " ++ vt.2.1 ++ "(IO=file, filename=\"" ++
                  vt.2.1 ++ ".facts\")\n"))
                (emitStr "\n"))
          else
            emitSeq (emitStr (".decl " ++ g ++ strCapitalize vt.2.1 ++
                "(id:unsigned, " ++ g ++ strCapitalize vt.2.1 ++ ":" ++ vt.2.2 ++
                ")\n"))
              (emitSeq (emitStr (".input " ++ g ++ strCapitalize vt.2.1 ++
                  "(IO=file, filename=\"" ++ g ++ strCapitalize vt.2.1 ++
                  ".facts\")\n"))
                (emitStr "\n"))) "").1) =
      (fun vt : Nat × String × String =>
        if pyInStr (pyLower g) (pyLower vt.2.1) then
          ".decl " ++ vt.2.1 ++ "(id:unsigned, " ++ vt.2.1 ++ ":" ++ vt.2.2 ++
            ")\n" ++
          (".input " ++ vt.2.1 ++ "(IO=file, filename=\"" ++ vt.2.1 ++
            ".facts\")\n") ++ "\n"
        else
          ".decl " ++ g ++ strCapitalize vt.2.1 ++ "(id:unsigned, " ++ g ++
            strCapitalize vt.2.1 ++ ":" ++ vt.2.2 ++ ")\n" ++
          (".input " ++ g ++ strCapitalize vt.2.1 ++ "(IO=file, filename=\"" ++
            g ++ strCapitalize vt.2.1 ++ ".facts\")\n") ++ "\n") := by
    funext vt
    split
    · rw [emitStr3_eval]
    · rw [emitStr3_eval]
  rw [hfun]

set_option maxRecDepth 4000 in
/-- C8 witness: label `City` with properties `name:STRING` (declared
`CityName`) and `cityScore` (left undecorated). -/
theorem claim_C8_property_layer_names_witness :
    NodeSchema.hasSubLabels
        { entryToField := [(0, .ID), (1, .PROPERTY), (2, .PROPERTY)],
          nodeGlobalLabel := some "City",
          nodeProperty := [(1, "name", "symbol"), (2, "cityScore", "unsigned")] } =
      false ∧
    NodeSchema.nodeGlobalLabel
        { entryToField := [(0, .ID), (1, .PROPERTY), (2, .PROPERTY)],
          nodeGlobalLabel := some "City",
          nodeProperty := [(1, "name", "symbol"), (2, "cityScore", "unsigned")] } =
      some "City" ∧
    writeColumnBasedNodePropertyDeclHelper
        { entryToField := [(0, .ID), (1, .PROPERTY), (2, .PROPERTY)],
          nodeGlobalLabel := some "City",
          nodeProperty := [(1, "name", "symbol"), (2, "cityScore", "unsigned")] } "" =
      (".decl CityName(id:unsigned, CityName:symbol)\n" ++
        ".input CityName(IO=file, filename=\"CityName.facts\")\n\n" ++
        ".decl cityScore(id:unsigned, cityScore:unsigned)\n" ++
        ".input cityScore(IO=file, filename=\"cityScore.facts\")\n\n", none) :=
  ⟨rfl, rfl,
    (claim_C8_property_layer_names
        { entryToField := [(0, .ID), (1, .PROPERTY), (2, .PROPERTY)],
          nodeGlobalLabel := some "City",
          nodeProperty := [(1, "name", "symbol"), (2, "cityScore", "unsigned")] }
        "City" rfl rfl).trans (by decide)⟩

/-- Evaluating a head write followed by a loop of rule writes and a tail
write, in the grouping of the union helper. -/
theorem emitHeadForTail_eval (head tail : String) (f : String → String)
    (subs : List String) :
    emitSeq
        (emitSeq (emitStr head) (emitFor (fun sub => emitStr (f sub)) subs))
        (emitStr tail) "" =
      (head ++ strJoin (subs.map f) ++ tail, none) := by
  have hFor : emitFor (fun sub => emitStr (f sub)) subs "" =
      (strJoin (subs.map (fun x => (emitStr (f x) "").1)), none) :=
    emitFor_ok (fun b _ => emitStr_indep (f b)) (fun b _ => rfl)
  have hA : EmitIndep (emitSeq (emitStr head) (emitFor (fun sub => emitStr (f sub)) subs)) :=
    emitSeq_indep (emitStr_indep head) (emitFor_indep (fun b _ => emitStr_indep (f b)))
  have hAeval :
      emitSeq (emitStr head) (emitFor (fun sub => emitStr (f sub)) subs) "" =
        (head ++ strJoin (subs.map f), none) := by
    rw [emitSeq_ok (emitStr_indep head)
        (emitFor_indep (fun b _ => emitStr_indep (f b))) rfl, hFor]
    simp [emitStr, String.empty_append]
  rw [emitSeq_ok hA (emitStr_indep tail) (by rw [hAeval]), hAeval]
  simp [emitStr, String.empty_append]

/-- Evaluating a head write followed by a loop of rule writes and a tail
write, in the grouping of the identifier helper. -/
theorem emitStrForStr_eval (head : String) (f : String → String)
    (subs : List String) (tail : String) :
    emitSeq (emitStr head)
        (emitSeq (emitFor (fun sub => emitStr (f sub)) subs) (emitStr tail)) "" =
      (head ++ (strJoin (subs.map f) ++ tail), none) := by
  have hFor : emitFor (fun sub => emitStr (f sub)) subs "" =
      (strJoin (subs.map (fun x => (emitStr (f x) "").1)), none) :=
    emitFor_ok (fun b _ => emitStr_indep (f b)) (fun b _ => rfl)
  have hB : EmitIndep (emitSeq (emitFor (fun sub => emitStr (f sub)) subs) (emitStr tail)) :=
    emitSeq_indep (emitFor_indep (fun b _ => emitStr_indep (f b))) (emitStr_indep tail)
  have hBeval :
      emitSeq (emitFor (fun sub => emitStr (f sub)) subs) (emitStr tail) "" =
        (strJoin (subs.map f) ++ tail, none) := by
    rw [emitSeq_ok (emitFor_indep (fun b _ => emitStr_indep (f b)))
        (emitStr_indep tail) (by rw [hFor]), hFor]
    simp [emitStr, String.empty_append]
  rw [emitSeq_ok (emitStr_indep head) hB (by rfl), hBeval]
  simp [emitStr, String.empty_append]

/-- C3 (amended): for every schema with sub-labels and global label `g`, the
column-based declaration emits, per property in schema order, one head
declaration `g ++ capitalize(name)` and exactly one union rule per sub-label
whose body relation is the sub-label followed by the capitalized property
name (`AScore`, not the `Ascore` declared by the property layer), plus one
identifier union rule `g(id):- subLabel(id).` per sub-label. -/
theorem claim_C3_union_rules (s : NodeSchema) (g : String)
    (hsub : s.hasSubLabels = true) (hg : s.nodeGlobalLabel = some g) :
    writeColumnBasedNodePropertyUnionDeclHelper s "" =
      (strJoin (s.nodeProperty.map (fun vt =>
        ".decl " ++ g ++ strCapitalize vt.2.1 ++ "(id:unsigned, " ++
          strCapitalize vt.2.1 ++ ":" ++ vt.2.2 ++ ")\n" ++
        strJoin (s.nodeSubLabels.map (fun sub =>
          g ++ strCapitalize vt.2.1 ++ "(id, " ++ strCapitalize vt.2.1 ++
            ") :- " ++ sub ++ strCapitalize vt.2.1 ++ "(id, " ++
            strCapitalize vt.2.1 ++ ").\n")) ++ "\n")), none) ∧
    writeColumnBasedNodeIdDeclHelper s "" =
      (strJoin (s.nodeSubLabels.map (fun sub =>
        ".decl " ++ sub ++ "(id:unsigned)\n" ++
        (".input " ++ sub ++ "(IO=file, filename=\"" ++ sub ++ ".facts\")\n") ++
        "\n")) ++
       (".decl " ++ g ++ "(id:unsigned)\n" ++
        (strJoin (s.nodeSubLabels.map (fun sub =>
          g ++ "(id):- " ++ sub ++ "(id).\n")) ++ "\n")), none) := by
  constructor
  · simp only [writeColumnBasedNodePropertyUnionDeclHelper, hsub, hg,
      eq_self_iff_true, if_true, pyStrOfOpt]
    rw [emitFor_ok ?hind ?herr]
    case hind =>
      intro vt _
      exact emitSeq_indep
        (emitSeq_indep (emitStr_indep _) (emitFor_indep (fun b _ => emitStr_indep _)))
        (emitStr_indep _)
    case herr =>
      intro vt _
      rw [emitHeadForTail_eval]
    have hfun :
        (fun vt : Nat × String × String =>
          (emitSeq
            (emitSeq
              (emitStr (".decl " ++ g ++ strCapitalize vt.2.1 ++ "(id:unsigned, " ++
                strCapitalize vt.2.1 ++ ":" ++ vt.2.2 ++ ")\n"))
              (emitFor
                (fun sub =>
                  emitStr (g ++ strCapitalize vt.2.1 ++ "(id, " ++
                    strCapitalize vt.2.1 ++ ") :- " ++ sub ++ strCapitalize vt.2.1 ++
                    "(id, " ++ strCapitalize vt.2.1 ++ ").\n"))
                s.nodeSubLabels))
            (emitStr "\n") "").1) =
        (fun vt : Nat × String × String =>
          ".decl " ++ g ++ strCapitalize vt.2.1 ++ "(id:unsigned, " ++
            strCapitalize vt.2.1 ++ ":" ++ vt.2.2 ++ ")\n" ++
          strJoin (s.nodeSubLabels.map (fun sub =>
            g ++ strCapitalize vt.2.1 ++ "(id, " ++ strCapitalize vt.2.1 ++
              ") :- " ++ sub ++ strCapitalize vt.2.1 ++ "(id, " ++
              strCapitalize vt.2.1 ++ ").\n")) ++ "\n") := by
      funext vt
      rw [emitHeadForTail_eval]
    rw [hfun]
  · simp only [writeColumnBasedNodeIdDeclHelper, hsub, hg,
      eq_self_iff_true, if_true, pyStrOfOpt]
    rw [emitSeq_ok ?hindFor ?hindRest ?herrFor]
    case hindFor =>
      exact emitFor_indep (fun label _ => emitStr3_indep _ _ _)
    case hindRest =>
      exact emitSeq_indep (emitStr_indep _)
        (emitSeq_indep (emitFor_indep (fun b _ => emitStr_indep _)) (emitStr_indep _))
    case herrFor =>
      rw [emitFor_ok (fun label _ => emitStr3_indep _ _ _)
        (fun label _ => by rw [emitStr3_eval])]
    rw [emitFor_ok (fun label _ => emitStr3_indep _ _ _)
      (fun label _ => by rw [emitStr3_eval]), emitStrForStr_eval]
    have hfun :
        (fun label =>
          (emitSeq (emitStr (".decl " ++ label ++ "(id:unsigned)\n"))
            (emitSeq
              (emitStr (".input " ++ label ++ "(IO=file, filename=\"" ++ label ++
                ".facts\")\n"))
              (emitStr "\n")) "").1) =
        (fun label : String =>
          ".decl " ++ label ++ "(id:unsigned)\n" ++
          (".input " ++ label ++ "(IO=file, filename=\"" ++ label ++ ".facts\")\n") ++
          "\n") := by
      funext label
      rw [emitStr3_eval]
    rw [hfun]

set_option maxRecDepth 4000 in
/-- C3 witness: global label `Global`, sub-label `A`, property `score` — one
union rule with body `AScore`, one identifier union rule `Global(id):- A(id).`. -/
theorem claim_C3_union_rules_witness :
    NodeSchema.hasSubLabels
        { entryToField := [(0, .ID), (1, .LABEL), (2, .PROPERTY)],
          nodeSubLabels := ["A"],
          nodeGlobalLabel := some "Global",
          nodeProperty := [(2, "score", "unsigned")],
          hasSubLabels := true,
          subLabelsPosition := some 1 } = true ∧
    NodeSchema.nodeGlobalLabel
        { entryToField := [(0, .ID), (1, .LABEL), (2, .PROPERTY)],
          nodeSubLabels := ["A"],
          nodeGlobalLabel := some "Global",
          nodeProperty := [(2, "score", "unsigned")],
          hasSubLabels := true,
          subLabelsPosition := some 1 } = some "Global" ∧
    writeColumnBasedNodePropertyUnionDeclHelper
        { entryToField := [(0, .ID), (1, .LABEL), (2, .PROPERTY)],
          nodeSubLabels := ["A"],
          nodeGlobalLabel := some "Global",
          nodeProperty := [(2, "score", "unsigned")],
          hasSubLabels := true,
          subLabelsPosition := some 1 } "" =
      (".decl GlobalScore(id:unsigned, Score:unsigned)\n" ++
        "GlobalScore(id, Score) :- AScore(id, Score).\n\n", none) ∧
    writeColumnBasedNodeIdDeclHelper
        { entryToField := [(0, .ID), (1, .LABEL), (2, .PROPERTY)],
          nodeSubLabels := ["A"],
          nodeGlobalLabel := some "Global",
          nodeProperty := [(2, "score", "unsigned")],
          hasSubLabels := true,
          subLabelsPosition := some 1 } "" =
      (".decl A(id:unsigned)\n.input A(IO=file, filename=\"A.facts\")\n\n" ++
        ".decl Global(id:unsigned)\nGlobal(id):- A(id).\n\n", none) :=
  ⟨rfl, rfl,
    (claim_C3_union_rules
        { entryToField := [(0, .ID), (1, .LABEL), (2, .PROPERTY)],
          nodeSubLabels := ["A"],
          nodeGlobalLabel := some "Global",
          nodeProperty := [(2, "score", "unsigned")],
          hasSubLabels := true,
          subLabelsPosition := some 1 } "Global" rfl rfl).1.trans (by decide),
    (claim_C3_union_rules
        { entryToField := [(0, .ID), (1, .LABEL), (2, .PROPERTY)],
          nodeSubLabels := ["A"],
          nodeGlobalLabel := some "Global",
          nodeProperty := [(2, "score", "unsigned")],
          hasSubLabels := true,
          subLabelsPosition := some 1 } "Global" rfl rfl).2.trans (by decide)⟩

/-- Setting a fresh key appends it at the end. -/
theorem odSet_append (k : String) (v : PyVal) (l : List (String × PyVal))
    (h : ∀ kv ∈ l, kv.1 ≠ k) : odSet k v l = l ++ [(k, v)] := by
  unfold odSet
  rw [if_neg]
  simp only [List.any_eq_true, beq_iff_eq, not_exists]
  intro kv
  intro hc
  exact absurd hc.2 (h kv hc.1)

/-- Invariant of the property-renaming loop: processing the keys of the
entries `l`, sitting in front of already-renamed entries `acc`, removes each
entry of `l` in turn and appends its renamed copy, provided keys are unique,
no renamed key collides with an original key, and renamed keys are pairwise
distinct. -/
theorem renameLoop_go (lbl : String) (l : List (String × PyVal)) :
    ∀ acc : List (String × PyVal),
    (l.map Prod.fst).Nodup →
    (∀ k ∈ l.map Prod.fst, ∀ k2 ∈ l.map Prod.fst, lbl ++ strCapitalize k ≠ k2) →
    (∀ k ∈ l.map Prod.fst, (lbl ++ strCapitalize k) ∉ acc.map Prod.fst) →
    (l.map (fun kv => lbl ++ strCapitalize kv.1)).Nodup →
    renameLoop lbl (l.map Prod.fst) (l ++ acc) =
      acc ++ l.map (fun kv => (lbl ++ strCapitalize kv.1, kv.2)) := by
  induction l with
  | nil =>
    intro acc _ _ _ _
    simp [renameLoop]
  | cons hd l ih =>
    intro acc hnodup hfresh hacc hinj
    obtain ⟨a, va⟩ := hd
    simp only [List.map_cons] at hnodup hfresh hacc hinj
    have hnodup2 := List.nodup_cons.mp hnodup
    have hinj2 := List.nodup_cons.mp hinj
    have hget : odGet a ((a, va) :: (l ++ acc)) = some va := by
      simp [odGet]
    have hrem : odRemove a ((a, va) :: (l ++ acc)) = l ++ acc := by
      simp [odRemove, List.eraseP_cons]
    have hnew : ∀ kv ∈ l ++ acc, kv.1 ≠ lbl ++ strCapitalize a := by
      intro kv hkv
      rcases List.mem_append.mp hkv with h | h
      · intro he
        exact hfresh a (List.mem_cons_self a _) kv.1
          (List.mem_cons_of_mem a (List.mem_map_of_mem Prod.fst h)) he.symm
      · intro he
        exact hacc a (List.mem_cons_self a _)
          (by rw [← he]; exact List.mem_map_of_mem Prod.fst h)
    have hset : odSet (lbl ++ strCapitalize a) va (l ++ acc) =
        (l ++ acc) ++ [(lbl ++ strCapitalize a, va)] := odSet_append _ _ _ hnew
    simp only [List.map_cons, List.cons_append]
    rw [renameLoop, hget]
    dsimp only
    rw [hrem, hset, List.append_assoc]
    rw [ih (acc ++ [(lbl ++ strCapitalize a, va)]) hnodup2.2
      (fun k hk k2 hk2 => hfresh k (List.mem_cons_of_mem a hk) k2 (List.mem_cons_of_mem a hk2))
      ?hacc2 hinj2.2]
    · rw [List.append_assoc]
      simp
    case hacc2 =>
      intro k hk
      simp only [List.map_append, List.map_cons, List.map_nil, List.mem_append,
        List.mem_singleton]
      rintro (hmem | heq)
      · exact hacc k (List.mem_cons_of_mem a hk) hmem
      · apply hinj2.1
        rw [← heq]
        obtain ⟨kv, hkv, hkv1⟩ := List.mem_map.mp hk
        exact List.mem_map.mpr ⟨kv, hkv, by rw [hkv1]⟩

/-- The renaming loop of `createNodes`, run on the node's own key list,
renames every key to `label ++ capitalize(key)` preserving insertion order
(under the freshness conditions of `renameLoop_go`). -/
theorem renameLoop_spec (lbl : String) (l : List (String × PyVal))
    (hnodup : (l.map Prod.fst).Nodup)
    (hfresh : ∀ k ∈ l.map Prod.fst, ∀ k2 ∈ l.map Prod.fst,
      lbl ++ strCapitalize k ≠ k2)
    (hinj : (l.map (fun kv => lbl ++ strCapitalize kv.1)).Nodup) :
    renameLoop lbl (l.map Prod.fst) l =
      l.map (fun kv => (lbl ++ strCapitalize kv.1, kv.2)) := by
  have h := renameLoop_go lbl l [] hnodup hfresh (by simp) hinj
  simpa using h

/-- C4 (amended): a materialized node that carries a sub-label has every
property key renamed to the sub-label followed by Python-`capitalize`d key —
first character upper-cased and the remaining characters LOWER-cased (so
`firstName` becomes `AFirstname`) — preserving insertion order, provided the
renamed keys collide neither with original keys nor with each other. -/
theorem claim_C4_rename_lowercases_tail (s : NodeSchema) (n : Node) (lbl : String)
    (hlab : n.label = some lbl)
    (hnodup : (n.property.map Prod.fst).Nodup)
    (hfresh : ∀ k ∈ n.property.map Prod.fst, ∀ k2 ∈ n.property.map Prod.fst,
      lbl ++ strCapitalize k ≠ k2)
    (hinj : (n.property.map (fun kv => lbl ++ strCapitalize kv.1)).Nodup) :
    (finalizeNode s n).label = some lbl ∧
    (finalizeNode s n).property =
      n.property.map (fun kv => (lbl ++ strCapitalize kv.1, kv.2)) := by
  unfold finalizeNode
  rw [hlab]
  exact ⟨rfl, renameLoop_spec lbl n.property hnodup hfresh hinj⟩

/-- C4 witness: sub-label `A` with key `firstName` gives `AFirstname`. -/
theorem claim_C4_rename_lowercases_tail_witness :
    Node.label
        { id := some "0", label := some "A",
          property := [("firstName", PyVal.str "x")] } = some "A" ∧
    (finalizeNode {}
        { id := some "0", label := some "A",
          property := [("firstName", PyVal.str "x")] }).label = some "A" ∧
    (finalizeNode {}
        { id := some "0", label := some "A",
          property := [("firstName", PyVal.str "x")] }).property =
      [("AFirstname", PyVal.str "x")] :=
  ⟨rfl,
    (claim_C4_rename_lowercases_tail {}
        { id := some "0", label := some "A",
          property := [("firstName", PyVal.str "x")] } "A"
        rfl (by decide) (by decide) (by decide)).1,
    ((claim_C4_rename_lowercases_tail {}
        { id := some "0", label := some "A",
          property := [("firstName", PyVal.str "x")] } "A"
        rfl (by decide) (by decide) (by decide)).2).trans (by decide)⟩

/-- C10 (amended): a node row whose `:LABEL` value is the empty string is
treated as carrying the sub-label `""` — the node keeps label `""` (not the
global label) and its property keys are still renamed (to `capitalize(key)`);
the global label is used and renaming is skipped exactly for nodes whose
label was never set (schema without a `:LABEL` column). -/
theorem claim_C10_empty_sublabel_still_renames (s : NodeSchema) (n m : Node)
    (hlab : n.label = some "")
    (hnodup : (n.property.map Prod.fst).Nodup)
    (hfresh : ∀ k ∈ n.property.map Prod.fst, ∀ k2 ∈ n.property.map Prod.fst,
      "" ++ strCapitalize k ≠ k2)
    (hinj : (n.property.map (fun kv => "" ++ strCapitalize kv.1)).Nodup)
    (hm : m.label = none) :
    (finalizeNode s n).label = some "" ∧
    (finalizeNode s n).property =
      n.property.map (fun kv => (strCapitalize kv.1, kv.2)) ∧
    (finalizeNode s m).label = s.nodeGlobalLabel ∧
    (finalizeNode s m).property = m.property := by
  refine ⟨?_, ?_, ?_, ?_⟩
  · unfold finalizeNode
    rw [hlab]
  · unfold finalizeNode
    rw [hlab]
    show renameLoop "" (n.property.map Prod.fst) n.property = _
    rw [renameLoop_spec "" n.property hnodup hfresh hinj]
    simp [String.empty_append]
  · unfold finalizeNode
    rw [hm]
  · unfold finalizeNode
    rw [hm]

/-- C10 witness: the empty `:LABEL` value keeps label `""` and renames `name`
to `Name`, while a label-less node receives the global label `G` with keys
untouched. -/
theorem claim_C10_empty_sublabel_still_renames_witness :
    Node.label
        { id := some "7", label := some "",
          property := [("name", PyVal.str "alice")] } = some "" ∧
    Node.label
        { id := some "9", label := none,
          property := [("name", PyVal.str "bob")] } = none ∧
    (finalizeNode { nodeGlobalLabel := some "G" }
        { id := some "7", label := some "",
          property := [("name", PyVal.str "alice")] }).label = some "" ∧
    (finalizeNode { nodeGlobalLabel := some "G" }
        { id := some "7", label := some "",
          property := [("name", PyVal.str "alice")] }).property =
      [("Name", PyVal.str "alice")] ∧
    (finalizeNode { nodeGlobalLabel := some "G" }
        { id := some "9", label := none,
          property := [("name", PyVal.str "bob")] }).label = some "G" ∧
    (finalizeNode { nodeGlobalLabel := some "G" }
        { id := some "9", label := none,
          property := [("name", PyVal.str "bob")] }).property =
      [("name", PyVal.str "bob")] :=
  ⟨rfl, rfl,
    (claim_C10_empty_sublabel_still_renames { nodeGlobalLabel := some "G" }
        { id := some "7", label := some "",
          property := [("name", PyVal.str "alice")] }
        { id := some "9", label := none,
          property := [("name", PyVal.str "bob")] }
        rfl (by decide) (by decide) (by decide) rfl).1,
    ((claim_C10_empty_sublabel_still_renames { nodeGlobalLabel := some "G" }
        { id := some "7", label := some "",
          property := [("name", PyVal.str "alice")] }
        { id := some "9", label := none,
          property := [("name", PyVal.str "bob")] }
        rfl (by decide) (by decide) (by decide) rfl).2.1).trans (by decide),
    (claim_C10_empty_sublabel_still_renames { nodeGlobalLabel := some "G" }
        { id := some "7", label := some "",
          property := [("name", PyVal.str "alice")] }
        { id := some "9", label := none,
          property := [("name", PyVal.str "bob")] }
        rfl (by decide) (by decide) (by decide) rfl).2.2.1,
    (claim_C10_empty_sublabel_still_renames { nodeGlobalLabel := some "G" }
        { id := some "7", label := some "",
          property := [("name", PyVal.str "alice")] }
        { id := some "9", label := none,
          property := [("name", PyVal.str "bob")] }
        rfl (by decide) (by decide) (by decide) rfl).2.2.2⟩

end Kaeru
